import Mathlib

/-!
Verification of the persistence + domain-record layer of the healthy-life
application (models `src/models/user_profile.py`, helpers
`src/utils/helpers.py`, and the record store `src/services/data_manager.py`).

Conventions of the embedding:
  * Python `float` is modelled as `ℚ` (exact arithmetic; the numeric claims
    state exact equalities which imply the float tolerances in the spec).
  * Python `int` is modelled as `Int`, `str` as `String`.
  * A function that raises is modelled as `Except CalcError _` (helpers) or
    `Option _` (pydantic construction, where any ValidationError is `none`).
  * `datetime` values are structures of calendar fields; `isoformat` /
    ISO-8601 parsing is implemented on characters, mirroring the fixed-width
    `YYYY-MM-DDTHH:MM:SS[.ffffff]` text that `datetime.isoformat()` emits
    (the fractional part is omitted exactly when `microsecond == 0`).
-/

/-- Calendar datetime, the shape of Python's `datetime.datetime`. -/
structure DateTime where
  year : Nat
  month : Nat
  day : Nat
  hour : Nat
  minute : Nat
  second : Nat
  microsecond : Nat
deriving DecidableEq

/-- Field bounds guaranteed by Python's `datetime` invariants
(`MINYEAR = 1`, `MAXYEAR = 9999`, the usual clock/calendar ranges). -/
def ValidDateTime (d : DateTime) : Prop :=
  1 ≤ d.year ∧ d.year ≤ 9999 ∧ 1 ≤ d.month ∧ d.month ≤ 12 ∧
  1 ≤ d.day ∧ d.day ≤ 31 ∧ d.hour ≤ 23 ∧ d.minute ≤ 59 ∧
  d.second ≤ 59 ∧ d.microsecond ≤ 999999

instance (d : DateTime) : Decidable (ValidDateTime d) := by
  unfold ValidDateTime; infer_instance

/-- Mixed-radix linearisation of a datetime; Python's field-lexicographic
datetime comparison agrees with comparing these keys on valid datetimes. -/
def DateTime.key (d : DateTime) : Nat :=
  (((((d.year * 13 + d.month) * 32 + d.day) * 24 + d.hour) * 60 + d.minute)
      * 60 + d.second) * 1000000 + d.microsecond

/-- Python's `str.strip()` on the whitespace it removes in this data
(kernel-reducible, unlike `String.trim`). -/
def stripChars (cs : List Char) : List Char :=
  ((cs.dropWhile Char.isWhitespace).reverse.dropWhile Char.isWhitespace).reverse

/-- `str.strip()` as used by the validators' blank checks. -/
def pyStrip (s : String) : String := String.mk (stripChars s.data)

/-- The character for a decimal digit. -/
def digitChar (d : Nat) : Char := Char.ofNat (48 + d)

/-- Exactly `w` decimal digits of `n`, most significant first — the output of
Python's zero-padded `"%0wd"` rendering for `n < 10^w`. -/
def natDigits : Nat → Nat → List Char
  | 0, _ => []
  | w + 1, n => natDigits w (n / 10) ++ [digitChar (n % 10)]

/-- Decode one decimal digit character. -/
def parseDigit (c : Char) : Option Nat :=
  if 48 ≤ c.toNat ∧ c.toNat ≤ 57 then some (c.toNat - 48) else none

/-- Fold decimal digit characters onto an accumulator. -/
def digitsVal : Nat → List Char → Option Nat
  | acc, [] => some acc
  | acc, c :: cs =>
    match parseDigit c with
    | some d => digitsVal (acc * 10 + d) cs
    | none => none

/-- Consume exactly `w` decimal digits from the front of a character list. -/
def parseFixed (w : Nat) (cs : List Char) : Option (Nat × List Char) :=
  if (cs.take w).length = w then
    match digitsVal 0 (cs.take w) with
    | some n => some (n, cs.drop w)
    | none => none
  else none

/-- Consume one expected literal character. -/
def expectChar (c : Char) : List Char → Option (List Char)
  | [] => none
  | x :: xs => if x = c then some xs else none

theorem parseDigit_digitChar (d : Nat) (h : d < 10) :
    parseDigit (digitChar d) = some d := by
  interval_cases d <;> decide

theorem digitsVal_append (acc : Nat) (xs ys : List Char) :
    digitsVal acc (xs ++ ys) =
      match digitsVal acc xs with
      | some a => digitsVal a ys
      | none => none := by
  induction xs generalizing acc with
  | nil => rfl
  | cons c cs ih =>
    simp only [List.cons_append, digitsVal]
    cases parseDigit c with
    | none => rfl
    | some d => exact ih _

theorem digitsVal_natDigits (w : Nat) :
    ∀ acc n, n < 10 ^ w → digitsVal acc (natDigits w n) = some (acc * 10 ^ w + n) := by
  induction w with
  | zero =>
    intro acc n hn
    have : n = 0 := by omega
    subst this
    simp [natDigits, digitsVal]
  | succ w ih =>
    intro acc n hn
    have hdiv : n / 10 < 10 ^ w := by
      have h10 : 10 ^ (w + 1) = 10 ^ w * 10 := pow_succ 10 w
      omega
    rw [natDigits, digitsVal_append, ih acc (n / 10) hdiv]
    simp only [digitsVal, parseDigit_digitChar (n % 10) (Nat.mod_lt n (by omega))]
    have h10 : acc * 10 ^ (w + 1) = acc * 10 ^ w * 10 := by rw [pow_succ]; ring
    congr 1
    omega

theorem natDigits_length (w n : Nat) : (natDigits w n).length = w := by
  induction w generalizing n with
  | zero => rfl
  | succ w ih => simp [natDigits, ih]

theorem parseFixed_natDigits (w n : Nat) (h : n < 10 ^ w) (rest : List Char) :
    parseFixed w (natDigits w n ++ rest) = some (n, rest) := by
  have hlen : (natDigits w n).length = w := natDigits_length w n
  have htake0 : ∀ xs rs : List Char, xs.length = w → (xs ++ rs).take w = xs := by
    intro xs rs hxs; rw [← hxs]; exact List.take_left _ _
  have hdrop0 : ∀ xs rs : List Char, xs.length = w → (xs ++ rs).drop w = rs := by
    intro xs rs hxs; rw [← hxs]; exact List.drop_left _ _
  have htake : ((natDigits w n ++ rest).take w) = natDigits w n := htake0 _ _ hlen
  have hdrop : ((natDigits w n ++ rest).drop w) = rest := hdrop0 _ _ hlen
  rw [parseFixed, htake, hdrop, hlen, digitsVal_natDigits w 0 n h]
  simp

theorem parseFixed_natDigits_nil (w n : Nat) (h : n < 10 ^ w) :
    parseFixed w (natDigits w n) = some (n, []) := by
  have := parseFixed_natDigits w n h []
  rwa [List.append_nil] at this

theorem expectChar_cons (c : Char) (xs : List Char) :
    expectChar c (c :: xs) = some xs := by
  simp [expectChar]

/-- Characters of Python's `datetime.isoformat()`:
`YYYY-MM-DDTHH:MM:SS`, with `.ffffff` appended iff the microsecond is
non-zero. -/
def isoChars (d : DateTime) : List Char :=
  natDigits 4 d.year ++ ('-' :: (natDigits 2 d.month ++ ('-' :: (natDigits 2 d.day ++
    ('T' :: (natDigits 2 d.hour ++ (':' :: (natDigits 2 d.minute ++
    (':' :: (natDigits 2 d.second ++
      (if d.microsecond = 0 then [] else '.' :: natDigits 6 d.microsecond)))))))))))

/-- ISO-8601 parsing as pydantic performs it on a serialized datetime. -/
def isoParseChars (cs : List Char) : Option DateTime :=
  (parseFixed 4 cs).bind fun p1 =>
  (expectChar '-' p1.2).bind fun cs1 =>
  (parseFixed 2 cs1).bind fun p2 =>
  (expectChar '-' p2.2).bind fun cs2 =>
  (parseFixed 2 cs2).bind fun p3 =>
  (expectChar 'T' p3.2).bind fun cs3 =>
  (parseFixed 2 cs3).bind fun p4 =>
  (expectChar ':' p4.2).bind fun cs4 =>
  (parseFixed 2 cs4).bind fun p5 =>
  (expectChar ':' p5.2).bind fun cs5 =>
  (parseFixed 2 cs5).bind fun p6 =>
  match p6.2 with
  | [] => some ⟨p1.1, p2.1, p3.1, p4.1, p5.1, p6.1, 0⟩
  | c :: cs6 =>
    if c = '.' then
      (parseFixed 6 cs6).bind fun p7 =>
      if p7.2 = [] then some ⟨p1.1, p2.1, p3.1, p4.1, p5.1, p6.1, p7.1⟩ else none
    else none

/-- `datetime.isoformat()` as a string. -/
def isoFormat (d : DateTime) : String := String.mk (isoChars d)

/-- Parse an ISO-8601 datetime string. -/
def isoParse (s : String) : Option DateTime := isoParseChars s.data

theorem isoParseChars_isoChars (d : DateTime) (h : ValidDateTime d) :
    isoParseChars (isoChars d) = some d := by
  obtain ⟨h1, h2, h3, h4, h5, h6, h7, h8, h9, h10⟩ := h
  have hy : d.year < 10 ^ 4 := by norm_num; omega
  have hmo : d.month < 10 ^ 2 := by norm_num; omega
  have hd : d.day < 10 ^ 2 := by norm_num; omega
  have hh : d.hour < 10 ^ 2 := by norm_num; omega
  have hmi : d.minute < 10 ^ 2 := by norm_num; omega
  have hs : d.second < 10 ^ 2 := by norm_num; omega
  have hus : d.microsecond < 10 ^ 6 := by norm_num; omega
  by_cases hz : d.microsecond = 0
  · simp only [isoChars]
    rw [if_pos hz]
    simp only [isoParseChars, parseFixed_natDigits 4 d.year hy, Option.some_bind,
      expectChar_cons, parseFixed_natDigits 2 d.month hmo,
      parseFixed_natDigits 2 d.day hd, parseFixed_natDigits 2 d.hour hh,
      parseFixed_natDigits 2 d.minute hmi, List.append_nil,
      parseFixed_natDigits_nil 2 d.second hs]
    rw [← hz]
  · simp only [isoChars]
    rw [if_neg hz]
    simp only [isoParseChars, parseFixed_natDigits 4 d.year hy, Option.some_bind,
      expectChar_cons, parseFixed_natDigits 2 d.month hmo,
      parseFixed_natDigits 2 d.day hd, parseFixed_natDigits 2 d.hour hh,
      parseFixed_natDigits 2 d.minute hmi, parseFixed_natDigits 2 d.second hs,
      parseFixed_natDigits_nil 6 d.microsecond hus]
    rfl

theorem isoParse_isoFormat (d : DateTime) (h : ValidDateTime d) :
    isoParse (isoFormat d) = some d :=
  isoParseChars_isoChars d h

/-! ### Calculation helpers (`src/utils/helpers.py`)

Type checks (`isinstance`) are discharged by the embedding's types; every
`raise` becomes an `Except.error` of the corresponding Python exception
class. -/

/-- Python exception classes raised by the calculation helpers. -/
inductive CalcError where
  | typeError
  | valueError
  | zeroDivisionError
  | overflowError
deriving DecidableEq

/-- `calculate_bmi`: rejects `height ≤ 0` with `ZeroDivisionError`, otherwise
`weight / (height/100)**2`.  No clamping of the result. -/
def calculate_bmi (height weight : ℚ) : Except CalcError ℚ :=
  if height ≤ 0 then .error .zeroDivisionError
  else .ok (weight / (height / 100) ^ 2)

/-- `calculate_bmr` (Harris-Benedict, gender-branched).  Non-positive
height/weight/age and unrecognized gender raise `ValueError`. -/
def calculate_bmr (height weight : ℚ) (age : Int) (gender : String) :
    Except CalcError ℚ :=
  if height ≤ 0 ∨ weight ≤ 0 ∨ age ≤ 0 then .error .valueError
  else if gender ≠ "男性" ∧ gender ≠ "女性" then .error .valueError
  else if gender = "男性" then
    .ok ((88.362 : ℚ) + (13.397 : ℚ) * weight + (4.799 : ℚ) * height
        - (5.677 : ℚ) * (age : ℚ))
  else
    .ok ((447.593 : ℚ) + (9.247 : ℚ) * weight + (3.098 : ℚ) * height
        - (4.330 : ℚ) * (age : ℚ))

/-- The activity-level multiplier table (`multipliers` dict in
`calculate_tdee`); `none` for a key that is not in the dict. -/
def tdee_multiplier (level : String) : Option ℚ :=
  if level = "座りがち" then some (1.2 : ℚ)
  else if level = "軽い運動" then some (1.375 : ℚ)
  else if level = "適度な運動" then some (1.55 : ℚ)
  else if level = "活発" then some (1.725 : ℚ)
  else if level = "非常に活発" then some (1.9 : ℚ)
  else none

/-- `calculate_tdee`: blank activity level and negative bmr raise
`ValueError`; an unknown level falls back to the default multiplier 1.55
(`multipliers.get(activity_level, 1.55)`). -/
def calculate_tdee (bmr : ℚ) (activity_level : String) : Except CalcError ℚ :=
  if pyStrip activity_level = "" then .error .valueError
  else if bmr < 0 then .error .valueError
  else .ok (bmr * (tdee_multiplier activity_level).getD (1.55 : ℚ))

/-- One macro's share: derived calories and grams. -/
structure MacroShare where
  calories : ℚ
  grams : ℚ
deriving DecidableEq

/-- The value `calculate_macros` returns: one share per macro key. -/
structure MacroSplit where
  protein : MacroShare
  carbs : MacroShare
  fat : MacroShare
deriving DecidableEq

/-- The goal-indexed ratio table (`ratios` dict in `calculate_macros`);
`none` for a key that is not in the dict. -/
def macro_ratios (goal : String) : Option (ℚ × ℚ × ℚ) :=
  if goal = "減量" then some ((0.30 : ℚ), (0.35 : ℚ), (0.35 : ℚ))
  else if goal = "増量" then some ((0.25 : ℚ), (0.45 : ℚ), (0.30 : ℚ))
  else if goal = "筋肉増強" then some ((0.25 : ℚ), (0.45 : ℚ), (0.30 : ℚ))
  else if goal = "体重維持" then some ((0.20 : ℚ), (0.50 : ℚ), (0.30 : ℚ))
  else if goal = "健康維持" then some ((0.20 : ℚ), (0.50 : ℚ), (0.30 : ℚ))
  else none

/-- The per-macro computation loop of `calculate_macros`: protein/carb
grams divide by 4, fat grams divide by 9. -/
def macroSplitOf (calories : ℚ) (r : ℚ × ℚ × ℚ) : MacroSplit :=
  { protein := { calories := calories * r.1, grams := calories * r.1 / 4 }
    carbs := { calories := calories * r.2.1, grams := calories * r.2.1 / 4 }
    fat := { calories := calories * r.2.2, grams := calories * r.2.2 / 9 } }

/-- `calculate_macros`: blank goal and negative calories raise `ValueError`;
an unknown goal uses the 体重維持 (maintain-weight) ratios
(`ratios["体重維持"]`). -/
def calculate_macros (calories : ℚ) (goal : String) :
    Except CalcError MacroSplit :=
  if pyStrip goal = "" then .error .valueError
  else if calories < 0 then .error .valueError
  else .ok (macroSplitOf calories
    ((macro_ratios goal).getD ((0.20 : ℚ), (0.50 : ℚ), (0.30 : ℚ))))

/-! ### Domain records (`src/models/user_profile.py`)

pydantic construction is modelled as a parser from the raw (JSON-shaped)
form to the record; every `field_validator` raising becomes `none`. -/

/-- A JSON scalar inside a loose food map. -/
inductive FoodVal where
  | s (v : String)
  | q (v : ℚ)
deriving DecidableEq

/-- A loosely-typed key/value food map (`Dict[str, Any]`). -/
def RawFood : Type := List (String × FoodVal)

instance : DecidableEq RawFood := by
  unfold RawFood; infer_instance

/-- The keys of a loose food map, in order. -/
def foodKeys (m : RawFood) : List String := m.map (fun p => p.1)

/-- `FoodItem`: structured food entry with validated fields. -/
structure FoodItem where
  name : String
  calories : ℚ
  protein : ℚ
  carbs : ℚ
  fat : ℚ
deriving DecidableEq

/-- `FoodItem.validate_name`: non-empty, non-blank. -/
def fooditem_name_ok (v : String) : Bool := !(v == "" || pyStrip v == "")

/-- `FoodItem.validate_nutrition_values`: each value ≥ 0. -/
def fooditem_value_ok (v : ℚ) : Bool := 0 ≤ v

/-- A `foods` entry of a `NutritionRecord`: `Union[FoodItem, Dict[str, Any]]`. -/
inductive Food where
  | item (f : FoodItem)
  | dict (m : RawFood)
deriving DecidableEq

/-- Key lookup in a loose food map (first match, as Python dicts have
unique keys). -/
def foodLookup (m : RawFood) (k : String) : Option FoodVal :=
  (m.find? (fun p => p.1 == k)).map (fun p => p.2)

/-- pydantic validation of a loose map as a `FoodItem` (the first arm of the
`Union`): the five fields must be present with the right types and pass the
`FoodItem` validators. -/
def asFoodItem (m : RawFood) : Option FoodItem :=
  match foodLookup m "name", foodLookup m "calories", foodLookup m "protein",
      foodLookup m "carbs", foodLookup m "fat" with
  | some (.s n), some (.q c), some (.q p), some (.q cb), some (.q f) =>
    if fooditem_name_ok n && fooditem_value_ok c && fooditem_value_ok p
        && fooditem_value_ok cb && fooditem_value_ok f
    then some ⟨n, c, p, cb, f⟩ else none
  | _, _, _, _, _ => none

/-- Union coercion of one raw `foods` entry: a map that validates as a
`FoodItem` becomes one; any other map stays a loose dict. -/
def parseFood (m : RawFood) : Food :=
  match asFoodItem m with
  | some f => .item f
  | none => .dict m

/-- The flat-map serialization of one `foods` entry, as produced inside
`NutritionRecord.model_dump`: a `FoodItem` yields the five fixed keys, a
loose dict is appended as-is. -/
def dumpFood : Food → RawFood
  | .item f => [("name", .s f.name), ("calories", .q f.calories),
      ("protein", .q f.protein), ("carbs", .q f.carbs), ("fat", .q f.fat)]
  | .dict m => m

/-- `WorkoutRecord` as constructed (all validators passed). -/
structure WorkoutRecord where
  date : DateTime
  exercise : String
  duration : Int
  calories : Int
  intensity : String
  notes : Option String
deriving DecidableEq

/-- The flat-map (JSON) form of a workout entry, as stored in
`workouts.json` and as produced by `WorkoutRecord.model_dump` (the date as
an ISO-8601 string). -/
structure RawWorkout where
  date : String
  exercise : String
  duration : Int
  calories : Int
  intensity : String
  notes : Option String
deriving DecidableEq

/-- `WorkoutRecord.validate_exercise`. -/
def workout_exercise_ok (v : String) : Bool := !(v == "" || pyStrip v == "")

/-- `WorkoutRecord.validate_duration`: positive, at most 600 minutes. -/
def workout_duration_ok (v : Int) : Bool := 0 < v && v ≤ 600

/-- `WorkoutRecord.validate_calories`: between 0 and 10000. -/
def workout_calories_ok (v : Int) : Bool := 0 ≤ v && v ≤ 10000

/-- `WorkoutRecord.validate_intensity`: one of 低/中/高. -/
def workout_intensity_ok (v : String) : Bool :=
  v == "低" || v == "中" || v == "高"

/-- `WorkoutRecord.validate_notes`: absent or at most 500 characters. -/
def workout_notes_ok (v : Option String) : Bool :=
  match v with
  | none => true
  | some s => s.length ≤ 500

/-- `WorkoutRecord(**raw)`: pydantic parses the ISO date string and runs
every field validator; any failure is a ValidationError (`none`). -/
def mkWorkoutRecord (r : RawWorkout) : Option WorkoutRecord :=
  (isoParse r.date).bind fun d =>
  if workout_exercise_ok r.exercise && workout_duration_ok r.duration
      && workout_calories_ok r.calories && workout_intensity_ok r.intensity
      && workout_notes_ok r.notes
  then some ⟨d, r.exercise, r.duration, r.calories, r.intensity, r.notes⟩
  else none

/-- `WorkoutRecord.model_dump()` with the date in its serialized ISO form
(the `field_serializer` for `date`). -/
def WorkoutRecord.model_dump (r : WorkoutRecord) : RawWorkout :=
  ⟨isoFormat r.date, r.exercise, r.duration, r.calories, r.intensity, r.notes⟩

/-- All `WorkoutRecord` field validators hold and the date is a real
`datetime` value. -/
def ValidWorkoutRecord (r : WorkoutRecord) : Prop :=
  ValidDateTime r.date ∧ workout_exercise_ok r.exercise = true ∧
  workout_duration_ok r.duration = true ∧
  workout_calories_ok r.calories = true ∧
  workout_intensity_ok r.intensity = true ∧
  workout_notes_ok r.notes = true

instance (r : WorkoutRecord) : Decidable (ValidWorkoutRecord r) := by
  unfold ValidWorkoutRecord; infer_instance

/-- `NutritionRecord` as a runtime object.  Construction always produces
`date = some _`; the `Option` mirrors that the stored attribute can be
`None` after post-construction mutation, which `save_nutrition` guards
against. -/
structure NutritionRecord where
  date : Option DateTime
  meal_type : String
  foods : List Food
  total_calories : ℚ
  notes : Option String
deriving DecidableEq

/-- The flat-map (JSON) form of a nutrition entry, as stored in
`nutrition.json` and as produced by `NutritionRecord.model_dump`. -/
structure RawNutrition where
  date : String
  meal_type : String
  foods : List RawFood
  total_calories : ℚ
  notes : Option String
deriving DecidableEq

/-- `NutritionRecord.validate_meal_type`: non-blank and one of the five
meal types. -/
def nutrition_meal_type_ok (v : String) : Bool :=
  !(v == "" || pyStrip v == "") &&
    (v == "朝食" || v == "昼食" || v == "夕食" || v == "間食" || v == "夜食")

/-- `NutritionRecord.validate_total_calories`: a number ≥ 0 (the `None` and
`str` arms are impossible for a typed `ℚ`). -/
def nutrition_total_calories_ok (v : ℚ) : Bool := 0 ≤ v

/-- `NutritionRecord(**raw)` relative to the current time `now`:
pydantic parses the ISO date (rejecting a future date), validates
`meal_type` and `total_calories`, coerces every `foods` entry through the
`Union[FoodItem, Dict]` arm, and accepts any list for `foods`
(`validate_foods` only rejects non-list values — an empty list passes). -/
def mkNutritionRecord (now : DateTime) (r : RawNutrition) :
    Option NutritionRecord :=
  (isoParse r.date).bind fun d =>
  if now.key < d.key then none
  else if ¬ nutrition_meal_type_ok r.meal_type then none
  else if ¬ nutrition_total_calories_ok r.total_calories then none
  else some ⟨some d, r.meal_type, r.foods.map parseFood, r.total_calories, r.notes⟩

/-- `NutritionRecord.model_dump()`: the base dump with every `foods` entry
normalised through `dumpFood` and the date serialized by the
`field_serializer` (the serializer is only reached with a real datetime;
the `none` arm renders an empty string and is unreachable in the store). -/
def NutritionRecord.model_dump (r : NutritionRecord) : RawNutrition :=
  ⟨(match r.date with
    | some d => isoFormat d
    | none => ""),
   r.meal_type, r.foods.map dumpFood, r.total_calories, r.notes⟩

/-- `UserProfile` as constructed. -/
structure UserProfile where
  name : String
  age : Int
  gender : String
  height : ℚ
  weight : ℚ
  activity_level : String
  goal : String
  created_at : DateTime
  updated_at : DateTime
deriving DecidableEq

/-- The flat-map (JSON) form of a profile, as written to
`current_user.json` (both timestamps via their `field_serializer`). -/
structure RawProfile where
  name : String
  age : Int
  gender : String
  height : ℚ
  weight : ℚ
  activity_level : String
  goal : String
  created_at : String
  updated_at : String
deriving DecidableEq

/-- `UserProfile.model_dump()`. -/
def UserProfile.model_dump (p : UserProfile) : RawProfile :=
  ⟨p.name, p.age, p.gender, p.height, p.weight, p.activity_level, p.goal,
   isoFormat p.created_at, isoFormat p.updated_at⟩

/-! ### Record store (`src/services/data_manager.py`)

File I/O is modelled by explicit state passing: the contents of
`workouts.json` / `nutrition.json` are a `List RawWorkout` /
`List RawNutrition`, the single profile file an `Option RawProfile`.
I/O exceptions (the outer `except` arms) are outside the model. -/

/-- The `[Record(**r) for r in data]` comprehension: all entries parse, or
the whole comprehension raises (and the caller's `except` arm takes over). -/
def parseAll {α β : Type} (f : α → Option β) : List α → Option (List β)
  | [] => some []
  | x :: xs =>
    match f x with
    | some y => (parseAll f xs).map (fun l => y :: l)
    | none => none

/-- `DataManager.load_workouts`: the comprehension under `try`, with the
`except` arm returning `[]`. -/
def load_workouts (entries : List RawWorkout) : List WorkoutRecord :=
  match parseAll mkWorkoutRecord entries with
  | some l => l
  | none => []

/-- `DataManager.load_nutrition` (the current time feeds the future-date
validator run during parsing). -/
def load_nutrition (now : DateTime) (entries : List RawNutrition) :
    List NutritionRecord :=
  match parseAll (mkNutritionRecord now) entries with
  | some l => l
  | none => []

/-- `DataManager.delete_workout`: bounds-checked `list.pop(index)` and
rewrite; out-of-range indices report failure and leave the file alone. -/
def delete_workout (index : Int) (store : List RawWorkout) :
    Bool × List RawWorkout :=
  if 0 ≤ index ∧ index < store.length then (true, store.eraseIdx index.toNat)
  else (false, store)

/-- `DataManager.delete_nutrition`: same bounds-checked pop. -/
def delete_nutrition (index : Int) (store : List RawNutrition) :
    Bool × List RawNutrition :=
  if 0 ≤ index ∧ index < store.length then (true, store.eraseIdx index.toNat)
  else (false, store)

/-- `DataManager.save_workout`: append the dumped record and rewrite. -/
def save_workout (r : WorkoutRecord) (store : List RawWorkout) :
    Bool × List RawWorkout :=
  (true, store ++ [r.model_dump])

/-- `DataManager.save_nutrition`: pre-write validation rejects a record
with no date or an empty `foods` list (the per-entry `isinstance` check is
satisfied by every `Food`); otherwise append the dump and rewrite. -/
def save_nutrition (r : NutritionRecord) (store : List RawNutrition) :
    Bool × List RawNutrition :=
  if r.date = none then (false, store)
  else if r.foods = [] then (false, store)
  else (true, store ++ [r.model_dump])

/-- `DataManager.save_profile`: rejects an empty/blank name or non-positive
age; otherwise overwrites the profile file with the dump whose
`updated_at` is replaced by the save time.  The triple also returns the
in-memory profile object after the call (the code only mutates the fresh
`profile_data` dict, never the profile). -/
def save_profile (p : UserProfile) (now : DateTime)
    (stored : Option RawProfile) : Bool × UserProfile × Option RawProfile :=
  if p.name = "" ∨ pyStrip p.name = "" then (false, p, stored)
  else if p.age ≤ 0 then (false, p, stored)
  else (true, p, some { p.model_dump with updated_at := isoFormat now })

/-! ### Claim theorems -/

/-- C8: for every height > 0, `calculate_bmi` returns
`weight / (height/100)**2`; for height ≤ 0 it fails with the division
error; the result is not clamped — a negative weight yields a negative
BMI. -/
theorem C8_bmi_formula_and_errors (height weight : ℚ) :
    (0 < height →
      calculate_bmi height weight = .ok (weight / (height / 100) ^ 2)) ∧
    (height ≤ 0 →
      calculate_bmi height weight = .error .zeroDivisionError) ∧
    (0 < height → weight < 0 → weight / (height / 100) ^ 2 < 0) := by
  refine ⟨fun h => ?_, fun h => ?_, fun h hw => ?_⟩
  · rw [calculate_bmi, if_neg (by linarith)]
  · rw [calculate_bmi, if_pos h]
  · have hne : (height / 100 : ℚ) ≠ 0 := by positivity
    have hpos : (0 : ℚ) < (height / 100) ^ 2 := by positivity
    exact div_neg_of_neg_of_pos hw hpos

/-- Witness for C8 at height 175 cm, weight 70 kg (and the failure arm at
height 0, the negative-weight arm at weight −5). -/
theorem C8_bmi_formula_and_errors_witness :
    calculate_bmi 175 70 = .ok ((70 : ℚ) / ((175 : ℚ) / 100) ^ 2) ∧
    calculate_bmi 0 70 = .error .zeroDivisionError ∧
    ((-5 : ℚ) / ((175 : ℚ) / 100) ^ 2 < 0) :=
  ⟨(C8_bmi_formula_and_errors 175 70).1 (by norm_num),
   (C8_bmi_formula_and_errors 0 70).2.1 (by norm_num),
   (C8_bmi_formula_and_errors 175 (-5)).2.2 (by norm_num) (by norm_num)⟩

/-- C9: for positive height/weight/age and gender 男性 (male),
`calculate_bmr` returns the male Harris-Benedict value
`88.362 + 13.397·weight + 4.799·height − 5.677·age` (exactly, hence within
the 1e-6 float tolerance); non-positive height/weight/age or an
unrecognized gender fails with `ValueError`. -/
theorem C9_bmr_male_formula_and_errors (height weight : ℚ) (age : Int)
    (gender : String) :
    (0 < height → 0 < weight → 0 < age → gender = "男性" →
      calculate_bmr height weight age gender =
        .ok ((88.362 : ℚ) + (13.397 : ℚ) * weight + (4.799 : ℚ) * height
            - (5.677 : ℚ) * (age : ℚ))) ∧
    (height ≤ 0 ∨ weight ≤ 0 ∨ age ≤ 0 ∨
        (gender ≠ "男性" ∧ gender ≠ "女性") →
      calculate_bmr height weight age gender = .error .valueError) := by
  constructor
  · intro hh hw ha hg
    rw [calculate_bmr, if_neg (by push_neg; exact ⟨by linarith, by linarith, by omega⟩),
      if_neg (by simp [hg]), if_pos hg]
  · intro h
    rcases h with h | h | h | ⟨hg1, hg2⟩
    · rw [calculate_bmr, if_pos (Or.inl h)]
    · rw [calculate_bmr, if_pos (Or.inr (Or.inl h))]
    · rw [calculate_bmr, if_pos (Or.inr (Or.inr h))]
    · by_cases hnum : height ≤ 0 ∨ weight ≤ 0 ∨ age ≤ 0
      · rw [calculate_bmr, if_pos hnum]
      · rw [calculate_bmr, if_neg hnum, if_pos ⟨hg1, hg2⟩]

/-- Witness for C9 at (175, 70, 30, 男性) and the error arm at an
unrecognized gender. -/
theorem C9_bmr_male_formula_and_errors_witness :
    calculate_bmr 175 70 30 "男性" =
      .ok ((88.362 : ℚ) + (13.397 : ℚ) * 70 + (4.799 : ℚ) * 175
          - (5.677 : ℚ) * ((30 : Int) : ℚ)) ∧
    calculate_bmr 175 70 30 "その他" = .error .valueError :=
  ⟨(C9_bmr_male_formula_and_errors 175 70 30 "男性").1 (by norm_num)
      (by norm_num) (by norm_num) rfl,
   (C9_bmr_male_formula_and_errors 175 70 30 "その他").2
      (Or.inr (Or.inr (Or.inr ⟨by decide, by decide⟩)))⟩

/-- C3 counterexample: the empty string is not one of the five recognized
activity levels, yet `calculate_tdee` raises `ValueError` on it instead of
returning `bmr × 1.55`. -/
theorem C3_counterexample_blank_level :
    calculate_tdee 1500 "" = .error .valueError ∧
    calculate_tdee 1500 "" ≠ .ok ((1500 : ℚ) * (1.55 : ℚ)) := by
  constructor
  · rfl
  · rw [show calculate_tdee 1500 "" = .error .valueError from rfl]
    simp

/-- C3 (amended): for every bmr accepted by the value check (bmr ≥ 0) and
every non-blank activity-level string that is not one of the five
recognized levels, `calculate_tdee` returns `bmr × 1.55`; a blank
(empty/whitespace-only) level instead raises `ValueError`. -/
theorem C3_tdee_default_multiplier (bmr : ℚ) (level : String)
    (h0 : 0 ≤ bmr) (h1 : pyStrip level ≠ "")
    (h2 : level ∉ ["座りがち", "軽い運動", "適度な運動", "活発", "非常に活発"]) :
    calculate_tdee bmr level = .ok (bmr * (1.55 : ℚ)) := by
  simp only [List.mem_cons, List.not_mem_nil, or_false, not_or] at h2
  obtain ⟨n1, n2, n3, n4, n5⟩ := h2
  rw [calculate_tdee, if_neg h1, if_neg (not_lt.mpr h0), tdee_multiplier,
    if_neg n1, if_neg n2, if_neg n3, if_neg n4, if_neg n5]
  rfl

/-- Witness for the amended C3 at bmr 1500 and the unrecognized level
ランニング. -/
theorem C3_tdee_default_multiplier_witness :
    calculate_tdee 1500 "ランニング" = .ok ((1500 : ℚ) * (1.55 : ℚ)) :=
  C3_tdee_default_multiplier 1500 "ランニング" (by norm_num) (by decide)
    (by decide)

/-- The three ratios of every row of the goal table sum to 1. -/
theorem macro_ratios_sum (goal : String) (r : ℚ × ℚ × ℚ)
    (h : macro_ratios goal = some r) : r.1 + r.2.1 + r.2.2 = 1 := by
  rw [macro_ratios] at h
  split_ifs at h <;> · injection h with h; subst h; norm_num

/-- The calorie shares of `macroSplitOf` sum to the input calories whenever
the ratios sum to 1. -/
theorem macroSplitOf_sum (calories : ℚ) (r : ℚ × ℚ × ℚ)
    (h : r.1 + r.2.1 + r.2.2 = 1) :
    (macroSplitOf calories r).protein.calories
      + (macroSplitOf calories r).carbs.calories
      + (macroSplitOf calories r).fat.calories = calories := by
  simp only [macroSplitOf]
  have : calories * r.1 + calories * r.2.1 + calories * r.2.2
      = calories * (r.1 + r.2.1 + r.2.2) := by ring
  rw [this, h, mul_one]

/-- C6 counterexample: the empty string is a goal string on which
`calculate_macros` raises `ValueError` instead of returning shares at all
(so no shares sum to the input calories there). -/
theorem C6_counterexample_blank_goal :
    calculate_macros 2000 "" = .error .valueError ∧
    calculate_macros 2000 "" ≠
      .ok (macroSplitOf 2000 ((0.20 : ℚ), (0.50 : ℚ), (0.30 : ℚ))) := by
  constructor
  · rfl
  · rw [show calculate_macros 2000 "" = .error .valueError from rfl]
    simp

/-- C6 (amended): for every calories > 0 and every non-blank goal string,
`calculate_macros` succeeds and its three calorie shares sum exactly to the
input calories (so certainly within tolerance 1.0), and an unrecognized
goal uses the maintain-weight ratio set (0.20, 0.50, 0.30); a blank goal
instead raises `ValueError`. -/
theorem C6_macros_sum_and_default (calories : ℚ) (goal : String)
    (h0 : 0 < calories) (h1 : pyStrip goal ≠ "") :
    ∃ m, calculate_macros calories goal = .ok m ∧
      m.protein.calories + m.carbs.calories + m.fat.calories = calories ∧
      |m.protein.calories + m.carbs.calories + m.fat.calories - calories| ≤ 1 ∧
      (macro_ratios goal = none →
        m.protein.calories = calories * (0.20 : ℚ) ∧
        m.carbs.calories = calories * (0.50 : ℚ) ∧
        m.fat.calories = calories * (0.30 : ℚ)) := by
  rw [calculate_macros, if_neg h1, if_neg (not_lt.mpr (le_of_lt h0))]
  refine ⟨_, rfl, ?_, ?_, ?_⟩
  · cases hg : macro_ratios goal with
    | none => exact macroSplitOf_sum calories _ (by norm_num)
    | some r => exact macroSplitOf_sum calories r (macro_ratios_sum goal r hg)
  · cases hg : macro_ratios goal with
    | none =>
      simp only [Option.getD_none]
      rw [macroSplitOf_sum calories _ (by norm_num)]
      simp
    | some r =>
      simp only [Option.getD_some]
      rw [macroSplitOf_sum calories r (macro_ratios_sum goal r hg)]
      simp
  · intro hg
    rw [hg]
    exact ⟨rfl, rfl, rfl⟩

/-- Witness for the amended C6 at 2000 kcal and the unrecognized goal
ダイエット. -/
theorem C6_macros_sum_and_default_witness :
    ∃ m, calculate_macros 2000 "ダイエット" = .ok m ∧
      m.protein.calories + m.carbs.calories + m.fat.calories = 2000 ∧
      |m.protein.calories + m.carbs.calories + m.fat.calories - 2000| ≤ 1 ∧
      (macro_ratios "ダイエット" = none →
        m.protein.calories = 2000 * (0.20 : ℚ) ∧
        m.carbs.calories = 2000 * (0.50 : ℚ) ∧
        m.fat.calories = 2000 * (0.30 : ℚ)) :=
  C6_macros_sum_and_default 2000 "ダイエット" (by norm_num) (by decide)

/-- C4: in-range deletion pops exactly the indexed element, keeping the
rest in order; out-of-range indices (including negatives) report failure
and leave the stored collection unchanged — for both categories. -/
theorem C4_delete_by_index (ws : List RawWorkout) (ns : List RawNutrition)
    (i : Int) :
    (0 ≤ i ∧ i < ws.length →
      delete_workout i ws = (true, ws.take i.toNat ++ ws.drop (i.toNat + 1)) ∧
      (ws.eraseIdx i.toNat).length + 1 = ws.length) ∧
    (¬(0 ≤ i ∧ i < ws.length) → delete_workout i ws = (false, ws)) ∧
    (0 ≤ i ∧ i < ns.length →
      delete_nutrition i ns = (true, ns.take i.toNat ++ ns.drop (i.toNat + 1)) ∧
      (ns.eraseIdx i.toNat).length + 1 = ns.length) ∧
    (¬(0 ≤ i ∧ i < ns.length) → delete_nutrition i ns = (false, ns)) := by
  refine ⟨fun h => ?_, fun h => ?_, fun h => ?_, fun h => ?_⟩
  · have hi : i.toNat < ws.length := by omega
    exact ⟨by rw [delete_workout, if_pos h, List.eraseIdx_eq_take_drop_succ],
      List.length_eraseIdx_add_one hi⟩
  · rw [delete_workout, if_neg h]
  · have hi : i.toNat < ns.length := by omega
    exact ⟨by rw [delete_nutrition, if_pos h, List.eraseIdx_eq_take_drop_succ],
      List.length_eraseIdx_add_one hi⟩
  · rw [delete_nutrition, if_neg h]

/-- Concrete workout entries for witnesses. -/
def wEntry1 : RawWorkout := ⟨"2024-05-01T10:30:00", "ランニング", 30, 300, "中", none⟩

/-- A second concrete workout entry. -/
def wEntry2 : RawWorkout := ⟨"2024-05-02T18:00:00", "水泳", 45, 400, "高", none⟩

/-- A third concrete workout entry. -/
def wEntry3 : RawWorkout := ⟨"2024-05-03T07:15:00", "ヨガ", 60, 150, "低", some "朝"⟩

/-- A concrete nutrition entry. -/
def nEntry1 : RawNutrition :=
  ⟨"2024-05-01T08:00:00", "朝食", [[("name", .s "ごはん"), ("calories", .q 250),
    ("protein", .q 5), ("carbs", .q 55), ("fat", .q 1)]], 250, none⟩

/-- Witness for C4: deleting index 1 of three workouts keeps entries 0 and
2 in order; index 5 and index −1 fail and change nothing. -/
theorem C4_delete_by_index_witness :
    delete_workout 1 [wEntry1, wEntry2, wEntry3] = (true, [wEntry1, wEntry3]) ∧
    delete_workout 5 [wEntry1, wEntry2, wEntry3] =
      (false, [wEntry1, wEntry2, wEntry3]) ∧
    delete_nutrition 0 [nEntry1] = (true, []) ∧
    delete_nutrition (-1) [nEntry1] = (false, [nEntry1]) := by
  refine ⟨?_, ?_, ?_, ?_⟩
  · rw [((C4_delete_by_index [wEntry1, wEntry2, wEntry3] [nEntry1] 1).1
      ⟨by decide, by decide⟩).1]
    rfl
  · exact (C4_delete_by_index [wEntry1, wEntry2, wEntry3] [nEntry1] 5).2.1
      (by decide)
  · rw [((C4_delete_by_index [wEntry1, wEntry2, wEntry3] [nEntry1] 0).2.2.1
      ⟨by decide, by decide⟩).1]
    rfl
  · exact (C4_delete_by_index [wEntry1, wEntry2, wEntry3] [nEntry1] (-1)).2.2.2
      (by decide)

/-- A fixed "current time" for nutrition parsing in witnesses. -/
def sampleNow : DateTime := ⟨2024, 6, 1, 12, 0, 0, 0⟩

/-- A raw nutrition entry whose `foods` list is empty. -/
def rawEmptyFoods : RawNutrition := ⟨"2024-05-01T08:00:00", "朝食", [], 500, none⟩

/-- C5: `save_nutrition` rejects a record with no date or an empty foods
list, writing nothing; yet `NutritionRecord` construction itself permits an
empty foods list, so "valid record" and "storable record" differ. -/
theorem C5_save_nutrition_prewrite_validation (r : NutritionRecord)
    (store : List RawNutrition) (h : r.date = none ∨ r.foods = []) :
    save_nutrition r store = (false, store) ∧
    mkNutritionRecord sampleNow rawEmptyFoods =
      some ⟨some ⟨2024, 5, 1, 8, 0, 0, 0⟩, "朝食", [], 500, none⟩ := by
  refine ⟨?_, by decide⟩
  rcases h with h | h
  · rw [save_nutrition, if_pos h]
  · by_cases hd : r.date = none
    · rw [save_nutrition, if_pos hd]
    · rw [save_nutrition, if_neg hd, if_pos h]

/-- Witness for C5 at a record whose date attribute is absent. -/
theorem C5_save_nutrition_prewrite_validation_witness :
    save_nutrition ⟨none, "朝食", [.item ⟨"りんご", 52, 0, 14, 0⟩], 52, none⟩ [] =
      (false, []) ∧
    mkNutritionRecord sampleNow rawEmptyFoods =
      some ⟨some ⟨2024, 5, 1, 8, 0, 0, 0⟩, "朝食", [], 500, none⟩ :=
  C5_save_nutrition_prewrite_validation
    ⟨none, "朝食", [.item ⟨"りんご", 52, 0, 14, 0⟩], 52, none⟩ [] (Or.inl rfl)

/-- C10: a successful `save_profile` writes the profile's dump with only
`updated_at` replaced by the save time — every other persisted field,
`created_at` included, is the profile's value at the call — and the
in-memory profile object is returned unmodified. -/
theorem C10_save_profile_frame (p : UserProfile) (now : DateTime)
    (stored : Option RawProfile) (h1 : pyStrip p.name ≠ "") (h2 : 0 < p.age) :
    save_profile p now stored =
      (true, p, some { p.model_dump with updated_at := isoFormat now }) ∧
    ({ p.model_dump with updated_at := isoFormat now } : RawProfile).name = p.name ∧
    ({ p.model_dump with updated_at := isoFormat now } : RawProfile).age = p.age ∧
    ({ p.model_dump with updated_at := isoFormat now } : RawProfile).gender = p.gender ∧
    ({ p.model_dump with updated_at := isoFormat now } : RawProfile).height = p.height ∧
    ({ p.model_dump with updated_at := isoFormat now } : RawProfile).weight = p.weight ∧
    ({ p.model_dump with updated_at := isoFormat now } : RawProfile).activity_level
      = p.activity_level ∧
    ({ p.model_dump with updated_at := isoFormat now } : RawProfile).goal = p.goal ∧
    ({ p.model_dump with updated_at := isoFormat now } : RawProfile).created_at
      = isoFormat p.created_at ∧
    ({ p.model_dump with updated_at := isoFormat now } : RawProfile).updated_at
      = isoFormat now := by
  have hne : ¬(p.name = "" ∨ pyStrip p.name = "") := by
    rintro (h | h)
    · exact h1 (by rw [h]; rfl)
    · exact h1 h
  rw [save_profile, if_neg hne, if_neg (not_le.mpr h2)]
  exact ⟨rfl, rfl, rfl, rfl, rfl, rfl, rfl, rfl, rfl, rfl⟩

/-- A concrete valid profile for the C10 witness. -/
def profileSample : UserProfile :=
  ⟨"山田太郎", 30, "男性", 175, 70, "適度な運動", "体重維持",
   ⟨2024, 1, 10, 9, 0, 0, 0⟩, ⟨2024, 1, 10, 9, 0, 0, 0⟩⟩

/-- Witness for C10 at a concrete profile and save time. -/
theorem C10_save_profile_frame_witness :
    save_profile profileSample sampleNow none =
      (true, profileSample,
        some { profileSample.model_dump with updated_at := isoFormat sampleNow }) ∧
    ({ profileSample.model_dump with updated_at := isoFormat sampleNow }
        : RawProfile).created_at = isoFormat profileSample.created_at :=
  ⟨(C10_save_profile_frame profileSample sampleNow none (by decide) (by decide)).1,
   (C10_save_profile_frame profileSample sampleNow none (by decide) (by decide)).2.2.2.2.2.2.2.2.1⟩

/-- C7: for every valid `WorkoutRecord`, constructing a record from its
`model_dump` (the stored flat map, date as ISO-8601 text) reproduces the
record exactly — the ISO serialization keeps microsecond precision. -/
theorem C7_workout_roundtrip (r : WorkoutRecord) (h : ValidWorkoutRecord r) :
    mkWorkoutRecord r.model_dump = some r := by
  obtain ⟨hd, he, hdu, hc, hi, hn⟩ := h
  rw [mkWorkoutRecord]
  simp only [WorkoutRecord.model_dump]
  rw [show isoParse (isoFormat r.date) = some r.date from isoParse_isoFormat r.date hd]
  simp only [Option.some_bind]
  rw [if_pos (by rw [he, hdu, hc, hi, hn]; rfl)]

/-- A concrete valid workout record (with a non-zero microsecond to
exercise the fractional ISO form). -/
def workoutSample : WorkoutRecord :=
  ⟨⟨2024, 5, 1, 10, 30, 0, 123456⟩, "ランニング", 30, 300, "中", some "公園"⟩

/-- Witness for C7 at a concrete record. -/
theorem C7_workout_roundtrip_witness :
    mkWorkoutRecord workoutSample.model_dump = some workoutSample :=
  C7_workout_roundtrip workoutSample (by decide)

/-- A stored workout entry that fails to parse (invalid intensity). -/
def wBadEntry : RawWorkout := ⟨"2024-05-02T18:00:00", "水泳", 45, 400, "最強", none⟩

/-- C1 counterexample: with one parseable and one unparseable stored entry,
`load_workouts` returns `[]` — not the one-element parsed subsequence the
claim promises. -/
theorem C1_counterexample_mixed_entries :
    load_workouts [wEntry1, wBadEntry] = [] ∧
    [wEntry1, wBadEntry].filterMap mkWorkoutRecord =
      [⟨⟨2024, 5, 1, 10, 30, 0, 0⟩, "ランニング", 30, 300, "中", none⟩] ∧
    load_workouts [wEntry1, wBadEntry] ≠
      [wEntry1, wBadEntry].filterMap mkWorkoutRecord := by
  refine ⟨by decide, by decide, by decide⟩

theorem parseAll_eq_none {α β : Type} (f : α → Option β) (l : List α) :
    parseAll f l = none ↔ ∃ x ∈ l, f x = none := by
  induction l with
  | nil => simp [parseAll]
  | cons x xs ih =>
    rw [parseAll]
    cases hfx : f x with
    | none => simp [hfx]
    | some y => simp [hfx, Option.map_eq_none', ih]

theorem parseAll_all_some {α β : Type} (f : α → Option β) (l : List α)
    (h : ∀ x ∈ l, f x ≠ none) : parseAll f l = some (l.filterMap f) := by
  induction l with
  | nil => rfl
  | cons x xs ih =>
    rw [parseAll]
    cases hfx : f x with
    | none => exact absurd hfx (h x (by simp))
    | some y =>
      rw [ih (fun z hz => h z (by simp [hz])), List.filterMap_cons, hfx]
      rfl

/-- C1 (amended): when every stored entry parses, `load_workouts` /
`load_nutrition` return all parsed records in stored order; but when any
entry fails to parse, the whole comprehension raises and the call returns
`[]` — the parseable entries are lost, not kept. -/
theorem C1_load_all_or_nothing (ws : List RawWorkout) (now : DateTime)
    (ns : List RawNutrition) :
    ((∀ e ∈ ws, mkWorkoutRecord e ≠ none) →
      load_workouts ws = ws.filterMap mkWorkoutRecord) ∧
    ((∃ e ∈ ws, mkWorkoutRecord e = none) → load_workouts ws = []) ∧
    ((∀ e ∈ ns, mkNutritionRecord now e ≠ none) →
      load_nutrition now ns = ns.filterMap (mkNutritionRecord now)) ∧
    ((∃ e ∈ ns, mkNutritionRecord now e = none) → load_nutrition now ns = []) := by
  refine ⟨fun h => ?_, fun h => ?_, fun h => ?_, fun h => ?_⟩
  · rw [load_workouts, parseAll_all_some _ _ h]
  · rw [load_workouts, (parseAll_eq_none _ _).mpr h]
  · rw [load_nutrition, parseAll_all_some _ _ h]
  · rw [load_nutrition, (parseAll_eq_none _ _).mpr h]

/-- Witness for the amended C1: an all-parseable store loads fully, a store
with one bad entry loads as `[]`. -/
theorem C1_load_all_or_nothing_witness :
    load_workouts [wEntry1, wEntry2] = [wEntry1, wEntry2].filterMap mkWorkoutRecord ∧
    load_workouts [wEntry1, wBadEntry] = [] ∧
    load_nutrition sampleNow [nEntry1] = [nEntry1].filterMap (mkNutritionRecord sampleNow) ∧
    load_nutrition sampleNow [nEntry1, rawEmptyFoods, nEntry1] ≠ [] :=
  ⟨(C1_load_all_or_nothing [wEntry1, wEntry2] sampleNow []).1 (by decide),
   (C1_load_all_or_nothing [wEntry1, wBadEntry] sampleNow []).2.1 (by decide),
   (C1_load_all_or_nothing [] sampleNow [nEntry1]).2.2.1 (by decide),
   by
     rw [(C1_load_all_or_nothing [] sampleNow [nEntry1, rawEmptyFoods, nEntry1]).2.2.1
       (by decide)]
     decide⟩

/-- A raw nutrition entry whose single `foods` map has only a `name` key,
so it cannot validate as a `FoodItem` and stays a loose dict. -/
def rawLooseFoods : RawNutrition :=
  ⟨"2024-05-01T08:00:00", "朝食", [[("name", .s "りんご")]], 52, none⟩

/-- C2 counterexample: a validly constructed `NutritionRecord` holding a
loosely-typed foods map with only a `name` key serializes that entry with
key set {name}, not the claimed {name, calories, protein, carbs, fat}. -/
theorem C2_counterexample_loose_map_keys :
    mkNutritionRecord sampleNow rawLooseFoods =
      some ⟨some ⟨2024, 5, 1, 8, 0, 0, 0⟩, "朝食",
        [.dict [("name", .s "りんご")]], 52, none⟩ ∧
    (NutritionRecord.model_dump ⟨some ⟨2024, 5, 1, 8, 0, 0, 0⟩, "朝食",
        [.dict [("name", .s "りんご")]], 52, none⟩).foods.map foodKeys
      = [["name"]] ∧
    [["name"]] ≠ [["name", "calories", "protein", "carbs", "fat"]] := by
  refine ⟨by decide, by decide, by decide⟩

/-- C2 (amended): `NutritionRecord.model_dump` serializes every `foods`
entry through `dumpFood`; an entry held as a structured `FoodItem` yields
the flat map with exactly the keys {name, calories, protein, carbs, fat},
while a loosely-typed map entry is passed through unchanged — so the two
forms coincide only when the loose map already has exactly that shape. -/
theorem C2_foods_serialization_shape (r : NutritionRecord) :
    r.model_dump.foods = r.foods.map dumpFood ∧
    (∀ f : FoodItem, Food.item f ∈ r.foods →
      foodKeys (dumpFood (Food.item f)) =
        ["name", "calories", "protein", "carbs", "fat"]) ∧
    (∀ m : RawFood, Food.dict m ∈ r.foods → dumpFood (Food.dict m) = m) :=
  ⟨rfl, fun _ _ => rfl, fun _ _ => rfl⟩

/-- A nutrition record holding both a structured and a loose foods entry. -/
def nutritionMixedSample : NutritionRecord :=
  ⟨some ⟨2024, 5, 1, 12, 0, 0, 0⟩, "昼食",
   [.item ⟨"ごはん", 250, 5, 55, 1⟩, .dict [("name", .s "お茶")]], 250, none⟩

/-- Witness for the amended C2 on a record with one entry of each form. -/
theorem C2_foods_serialization_shape_witness :
    nutritionMixedSample.model_dump.foods = nutritionMixedSample.foods.map dumpFood ∧
    foodKeys (dumpFood (Food.item ⟨"ごはん", 250, 5, 55, 1⟩)) =
      ["name", "calories", "protein", "carbs", "fat"] ∧
    dumpFood (Food.dict [("name", .s "お茶")]) = [("name", .s "お茶")] :=
  ⟨(C2_foods_serialization_shape nutritionMixedSample).1,
   (C2_foods_serialization_shape nutritionMixedSample).2.1
     ⟨"ごはん", 250, 5, 55, 1⟩ (by decide),
   (C2_foods_serialization_shape nutritionMixedSample).2.2
     [("name", .s "お茶")] (by decide)⟩
